import Mathlib

/-!
Verification of the Voice_Analysis repository's orchestration core:
the input validator (`src/utils/validator.py`), the provider dispatchers
of the transcription and analysis services, the analysis service's
question-answering logic (`src/services/analysis_service.py`), and the
controller state machine (`src/controllers/processing_controller.py`).

Python strings are modelled as Lean `String`; the filesystem is modelled
as a function from paths to optional file metadata; Python exceptions
become explicit error values in `Except`.
-/

namespace VoiceAnalysis

/-! ### String helpers mirroring the Python primitives used by the code -/

/-- `prefixOf n h` is true when the char list `n` is an initial segment of `h`
(used to model Python's substring operator). -/
def prefixOf : List Char → List Char → Bool
  | [], _ => true
  | _ :: _, [] => false
  | a :: as, b :: bs => a == b && prefixOf as bs

/-- `substrOf n h` is true when `n` occurs contiguously inside `h`. -/
def substrOf (needle : List Char) : List Char → Bool
  | [] => prefixOf needle []
  | c :: rest => prefixOf needle (c :: rest) || substrOf needle rest

/-- Model of Python's `needle in hay` for strings (contiguous substring test). -/
def strContains (hay needle : String) : Bool :=
  substrOf needle.data hay.data

/-- Model of Python's `str.lower()` (the code only lowercases ASCII extensions
and provider names, for which ASCII lowercasing coincides). -/
def lowerStr (s : String) : String :=
  String.mk (s.data.map Char.toLower)

/-- The characters Python's `str.strip()` removes (ASCII whitespace). -/
def pyIsSpace (c : Char) : Bool :=
  c == ' ' || c == '\t' || c == '\n' || c == '\r' || c == '\x0b' || c == '\x0c'

/-- Model of Python's `str.strip()`. -/
def pyStrip (s : String) : String :=
  String.mk (((s.data.dropWhile pyIsSpace).reverse.dropWhile pyIsSpace).reverse)

/-- Model of Python's `str.rfind(c)`: index of the last occurrence of `c`,
or `-1` when absent. -/
def rfind (c : Char) (cs : List Char) : Int :=
  match cs.reverse.findIdx? (· == c) with
  | none => -1
  | some j => ((cs.length - 1 - j : Nat) : Int)

/-- Model of the extension component of `os.path.splitext` on POSIX
(CPython `genericpath._splitext` with `sep = '/'`, no altsep, `extsep = '.'`):
the extension starts at the last dot after the last separator, provided the
basename has a non-dot character before that dot (so dotfiles like
`.bashrc` and extensionless names yield the empty extension). -/
def splitextExt (p : String) : String :=
  let cs := p.data
  let sepIndex : Int := rfind '/' cs
  let dotIndex : Int := rfind '.' cs
  if dotIndex > sepIndex then
    let hasNonDot := (List.range cs.length).any fun i =>
      decide (sepIndex + 1 ≤ (i : Int)) && decide ((i : Int) < dotIndex) &&
        !(cs.getD i '.' == '.')
    if hasNonDot then String.mk (cs.drop dotIndex.toNat) else ""
  else ""

/-! ### Validator (`src/utils/validator.py`) -/

/-- Metadata of a file on disk: its byte size, and — when `pydub` can decode
it — its audio length in milliseconds (`len(AudioSegment)`); `audio = none`
models `CouldntDecodeError`. -/
structure FileStat where
  sizeBytes : Nat
  audio : Option Nat
  deriving DecidableEq

/-- The filesystem as seen by the validator: `none` means no file at the path. -/
def FileSystem : Type := String → Option FileStat

/-- The validation-relevant part of `src/config.py`: `ALLOWED_FILE_EXTENSIONS`,
`MAX_FILE_SIZE_MB`, `MAX_FILE_LENGTH_MINS`. -/
structure VConfig where
  allowedExtensions : List String
  maxFileSizeMB : Nat
  maxFileLengthMins : Nat

/-- The default values set in `src/config.py`. -/
def defaultVConfig : VConfig :=
  { allowedExtensions := [".mp3", ".wav", ".m4a", ".flac", ".ogg"]
    maxFileSizeMB := 25
    maxFileLengthMins := 10 }

/-- The exception class raised by the validator: the Python code raises the
base `ValidationError` for both the missing-file and the undecodable-audio
cases, and dedicated subclasses for the other three. -/
inductive VCls where
  | validationError
  | invalidFileType
  | fileSizeExceeded
  | fileLengthExceeded
  deriving DecidableEq

/-- One value per `raise` site of `Validator.validate_audio_file`, carrying
the data that the raised exception's message is built from. -/
inductive VError where
  | notFound (path : String)
  | invalidType (allowed : List String)
  | sizeExceeded (sizeBytes : Nat) (limitMB : Nat)
  | durationExceeded (ms : Nat) (limitMins : Nat)
  | unreadable
  deriving DecidableEq

/-- The Python exception class of each validator error. -/
def VError.pyClass : VError → VCls
  | .notFound _ => .validationError
  | .invalidType _ => .invalidFileType
  | .sizeExceeded _ _ => .fileSizeExceeded
  | .durationExceeded _ _ => .fileLengthExceeded
  | .unreadable => .validationError

/-- Message of the missing-file `ValidationError`
(`f"File not found at path: {file_path}"`). -/
def notFoundMessage (p : String) : String :=
  "File not found at path: " ++ p

/-- Message of the undecodable-audio `ValidationError` (fixed text). -/
def unreadableMessage : String :=
  "Failed to read audio file. It may be corrupted or in an unsupported format despite the file extension."

/-- `Validator.validate_audio_file`. Checks run in source order: existence,
extension (lowercased, membership in the allow-list), size, then decode and
duration. The Python size test `getsize(p)/(1024*1024) > MAX_FILE_SIZE_MB`
is exact rational arithmetic (float division by a power of two is exact), so
it is embedded as `sizeBytes > maxMB * 1024 * 1024`; likewise the duration
test `len(audio)/60000 > MAX_FILE_LENGTH_MINS` is embedded as
`ms > maxMins * 60000` (strict inequality across an integer boundary is
preserved by float rounding). -/
def validate (cfg : VConfig) (fs : FileSystem) (p : String) : Except VError Unit :=
  match fs p with
  | none => .error (.notFound p)
  | some st =>
    let ext := splitextExt p
    if !(cfg.allowedExtensions.contains (lowerStr ext)) then
      .error (.invalidType cfg.allowedExtensions)
    else if st.sizeBytes > cfg.maxFileSizeMB * 1024 * 1024 then
      .error (.sizeExceeded st.sizeBytes cfg.maxFileSizeMB)
    else
      match st.audio with
      | none => .error .unreadable
      | some ms =>
        if ms > cfg.maxFileLengthMins * 1000 * 60 then
          .error (.durationExceeded ms cfg.maxFileLengthMins)
        else .ok ()

/-! ### Provider configuration and dispatch
(`src/config.py`, `TranscriptionService.transcribe`, `AnalysisService._analyze`) -/

/-- The provider-selection part of `src/config.py`. The module defines a
single `MODEL_PROVIDER` value (plus the OpenAI credential); there is no
separate selection for transcription versus analysis. -/
structure AppConfig where
  modelProvider : String
  openaiApiKey : Option String

/-- The two dispatch targets: the local model path or the OpenAI API path. -/
inductive ProviderChoice where
  | localModel
  | openaiApi
  deriving DecidableEq

/-- Strategy resolution performed by `TranscriptionService.transcribe`:
`provider = config.MODEL_PROVIDER.lower()`, then `local` / `openai` /
`raise ValueError(...)`. -/
def transcriptionRoute (cfg : AppConfig) : Except String ProviderChoice :=
  let provider := lowerStr cfg.modelProvider
  if provider == "local" then .ok .localModel
  else if provider == "openai" then .ok .openaiApi
  else .error ("Invalid model provider \x27" ++ cfg.modelProvider ++ "\x27 specified in config.")

/-- Strategy resolution performed by `AnalysisService._analyze`: it reads the
same `config.MODEL_PROVIDER` value and applies the same `local` / `openai` /
`ValueError` branching. -/
def analysisRoute (cfg : AppConfig) : Except String ProviderChoice :=
  let provider := lowerStr cfg.modelProvider
  if provider == "local" then .ok .localModel
  else if provider == "openai" then .ok .openaiApi
  else .error ("Invalid model provider \x27" ++ cfg.modelProvider ++ "\x27 specified in config.")

/-! ### Errors visible at the controller boundary -/

/-- The exceptions relevant to the controller and services, one constructor
per class of `src/utils/exceptions.py` that the modelled code raises, plus
Python's built-in `ValueError` (raised by the provider dispatchers). -/
inductive PyErr where
  | appError (msg : String)
  | validationError (e : VError)
  | transcriptionError (msg : String)
  | analysisError (msg : String)
  | irrelevantQuestionError (msg : String)
  | valueError (msg : String)
  deriving DecidableEq

/-- Whether the exception is in the `AppError` hierarchy (everything except
`ValueError`), i.e. is caught by `except AppError` in the controller. -/
def PyErr.isAppError : PyErr → Bool
  | .valueError _ => false
  | _ => true

/-! ### Analysis service Q&A (`AnalysisService.answer_question`) -/

/-- The phrase that rule 3 of the Q&A prompt instructs the model to return
verbatim when the question cannot be answered from the transcript. -/
def promptSentinel : String :=
  "That information is not available in the provided document."

/-- The string `AnalysisService.answer_question` actually searches the model
response for before raising `IrrelevantQuestionError`. -/
def checkedSentinel : String :=
  "ERROR: The answer to this question cannot be found"

/-- Message of `IrrelevantQuestionError` as raised by `answer_question`. -/
def irrelevantMsg : String :=
  "The question could not be answered based on the provided audio content."

/-- History serialization in `answer_question`:
`"\n".join(f"User: {q}\nAssistant: {a}" for q, a in chat_history)`. -/
def formatHistory (history : List (String × String)) : String :=
  String.intercalate "\n" (history.map fun qa => "User: " ++ qa.1 ++ "\nAssistant: " ++ qa.2)

/-- The Q&A prompt f-string of `answer_question`, transcribed with its source
indentation (8 spaces per line inside the triple-quoted literal). -/
def answerPrompt (text question : String) (history : List (String × String)) : String :=
  "\n" ++
  "        You are a machine. You are a Q&A engine that answers questions about a document.\n" ++
  "        You MUST follow these rules strictly:\n" ++
  "        1. Use the \"Conversation History\" to understand the user\x27s question, especially for follow-ups.\n" ++
  "        2. Find the answer to the user\x27s \"New User Question\" using ONLY the \"Document Transcript\".\n" ++
  "        3. If the answer is not in the transcript, you MUST ONLY respond with the exact phrase: \x27That information is not available in the provided document.\x27\n" ++
  "        4. Do not apologize. Do not explain your reasoning. Do not add any other words.\n" ++
  "\n" ++
  "        ---\n" ++
  "        **DOCUMENT TRANSCRIPT:**\n" ++
  "        " ++ text ++ "\n" ++
  "        ---\n" ++
  "        **CONVERSATION HISTORY:**\n" ++
  "        " ++ formatHistory history ++ "\n" ++
  "        ---\n" ++
  "        **NEW USER QUESTION:**\n" ++
  "        " ++ question ++ "\n" ++
  "        "

/-- `AnalysisService.answer_question`, parameterized by `analyze`, the
outcome of `self._analyze(prompt)` (the dispatcher of §4.3): builds the Q&A
prompt, submits it, and raises `IrrelevantQuestionError` when the response
contains `checkedSentinel`; otherwise returns the response. -/
def svcAnswerQuestion (text question : String) (history : List (String × String))
    (analyze : String → Except PyErr String) : Except PyErr String :=
  match analyze (answerPrompt text question history) with
  | .error e => .error e
  | .ok response =>
    if strContains response checkedSentinel then
      .error (.irrelevantQuestionError irrelevantMsg)
    else
      .ok response

/-! ### Controller (`src/controllers/processing_controller.py`) -/

/-- The controller's mutable session state: `self.transcript` and
`self.chat_history`. -/
structure SessionState where
  transcript : Option String
  history : List (String × String)
  deriving DecidableEq

/-- State set by `ProcessingController.__init__`. -/
def initState : SessionState :=
  { transcript := none, history := [] }

/-- Python truthiness of `self.transcript` (`None` and `""` are falsy),
as tested by `if not self.transcript`. -/
def transcriptTruthy : Option String → Bool
  | none => false
  | some s => !(s == "")

/-- Message of the `AppError` raised by `_ensure_transcript_exists`. -/
def notReadyMsg : String :=
  "Please process an audio file before requesting analysis."

/-- Message of the `AppError` raised on a blank question. -/
def emptyQuestionMsg : String :=
  "Question cannot be empty."

/-- Message of the generic `AppError` the controller wraps unexpected
exceptions into. -/
def unexpectedMsg : String :=
  "An unexpected error occurred. Please check the logs."

/-- `ProcessingController._ensure_transcript_exists`. -/
def ensureTranscript (σ : SessionState) : Except PyErr Unit :=
  if transcriptTruthy σ.transcript then .ok () else .error (.appError notReadyMsg)

/-- `ProcessingController.process_audio_file`, parameterized by the outcomes
of the two calls inside the `try` block: `valRes` for
`validator.validate_audio_file` and `transRes` for
`transcription_service.transcribe`. The state is reset first; a raised
`AppError` is re-raised unchanged, any other exception is wrapped into the
generic `AppError`; the state visible afterwards is the one left by the
mutations already executed. -/
def processAudioFile (σ : SessionState) (valRes : Except PyErr Unit)
    (transRes : Except PyErr String) : SessionState × Except PyErr Unit :=
  let _ := σ
  let σr : SessionState := { transcript := none, history := [] }
  match valRes with
  | .error e => (σr, .error (if e.isAppError then e else .appError unexpectedMsg))
  | .ok _ =>
    match transRes with
    | .error e => (σr, .error (if e.isAppError then e else .appError unexpectedMsg))
    | .ok t => ({ transcript := some t, history := [] }, .ok ())

/-- `ProcessingController.get_transcript`. -/
def getTranscript (σ : SessionState) : SessionState × Except PyErr String :=
  match ensureTranscript σ with
  | .error e => (σ, .error e)
  | .ok _ => (σ, .ok (σ.transcript.getD ""))

/-- `ProcessingController.get_summary`, parameterized by `svc`, the outcome of
`analysis_service.summarize(transcript)`. -/
def getSummary (σ : SessionState) (svc : String → Except PyErr String) :
    SessionState × Except PyErr String :=
  match ensureTranscript σ with
  | .error e => (σ, .error e)
  | .ok _ => (σ, svc (σ.transcript.getD ""))

/-- `ProcessingController.get_sentiment`, parameterized by `svc`, the outcome
of `analysis_service.get_sentiment(transcript)`. -/
def getSentiment (σ : SessionState) (svc : String → Except PyErr String) :
    SessionState × Except PyErr String :=
  match ensureTranscript σ with
  | .error e => (σ, .error e)
  | .ok _ => (σ, svc (σ.transcript.getD ""))

/-- `ProcessingController.answer_question`: transcript guard, blank-question
guard (`not question or not question.strip()`), the service call, then the
append of the new turn — the append executes only after the service call
returns normally. -/
def answerQuestion (σ : SessionState) (q : String)
    (analyze : String → Except PyErr String) : SessionState × Except PyErr String :=
  match ensureTranscript σ with
  | .error e => (σ, .error e)
  | .ok _ =>
    if q == "" || pyStrip q == "" then
      (σ, .error (.appError emptyQuestionMsg))
    else
      match svcAnswerQuestion (σ.transcript.getD "") q σ.history analyze with
      | .error e => (σ, .error e)
      | .ok response =>
        ({ transcript := σ.transcript, history := σ.history ++ [(q, response)] }, .ok response)

/-- States reachable from the freshly constructed controller by any sequence
of the five public operations, with arbitrary collaborator outcomes. -/
inductive Reachable : SessionState → Prop where
  | init : Reachable initState
  | process (σ : SessionState) (v : Except PyErr Unit) (t : Except PyErr String) :
      Reachable σ → Reachable (processAudioFile σ v t).1
  | transcriptOp (σ : SessionState) :
      Reachable σ → Reachable (getTranscript σ).1
  | summaryOp (σ : SessionState) (svc : String → Except PyErr String) :
      Reachable σ → Reachable (getSummary σ svc).1
  | sentimentOp (σ : SessionState) (svc : String → Except PyErr String) :
      Reachable σ → Reachable (getSentiment σ svc).1
  | answerOp (σ : SessionState) (q : String) (analyze : String → Except PyErr String) :
      Reachable σ → Reachable (answerQuestion σ q analyze).1

/-! ### Helper lemmas -/

/-- `process_audio_file` always leaves the history empty: the reset runs
first, and no branch appends to it. -/
theorem process_hist_nil (σ : SessionState) (v : Except PyErr Unit)
    (t : Except PyErr String) : (processAudioFile σ v t).1.history = [] := by
  unfold processAudioFile
  cases v with
  | error e => rfl
  | ok u =>
    cases t with
    | error e => rfl
    | ok s => rfl

/-- If `_ensure_transcript_exists` passes, the transcript is truthy. -/
theorem ensureTranscript_ok {σ : SessionState} {u : Unit}
    (h : ensureTranscript σ = .ok u) : transcriptTruthy σ.transcript = true := by
  unfold ensureTranscript at h
  split at h
  · assumption
  · simp at h

/-- The read-only operations return the state unchanged. -/
theorem getTranscript_state (σ : SessionState) : (getTranscript σ).1 = σ := by
  unfold getTranscript
  cases ensureTranscript σ <;> rfl

/-- `get_summary` returns the state unchanged. -/
theorem getSummary_state (σ : SessionState) (svc : String → Except PyErr String) :
    (getSummary σ svc).1 = σ := by
  unfold getSummary
  cases ensureTranscript σ <;> rfl

/-- `get_sentiment` returns the state unchanged. -/
theorem getSentiment_state (σ : SessionState) (svc : String → Except PyErr String) :
    (getSentiment σ svc).1 = σ := by
  unfold getSentiment
  cases ensureTranscript σ <;> rfl

/-- Complete case analysis of `answer_question`: either it fails and leaves
the state unchanged, or it succeeds, the transcript was truthy, and exactly
the new turn is appended. -/
theorem answerQuestion_cases (σ : SessionState) (q : String)
    (a : String → Except PyErr String) :
    ((answerQuestion σ q a).1 = σ ∧ ∃ e, (answerQuestion σ q a).2 = .error e) ∨
    ∃ r, (answerQuestion σ q a).1 = ⟨σ.transcript, σ.history ++ [(q, r)]⟩ ∧
      (answerQuestion σ q a).2 = .ok r ∧ transcriptTruthy σ.transcript = true := by
  unfold answerQuestion
  cases he : ensureTranscript σ with
  | error e => exact Or.inl ⟨rfl, e, rfl⟩
  | ok u =>
    have ht := ensureTranscript_ok he
    by_cases hq : (q == "" || pyStrip q == "") = true
    · rw [if_pos hq]
      exact Or.inl ⟨rfl, _, rfl⟩
    · rw [if_neg hq]
      cases hs : svcAnswerQuestion (σ.transcript.getD "") q σ.history a with
      | error e => exact Or.inl ⟨rfl, e, rfl⟩
      | ok r => exact Or.inr ⟨r, rfl, rfl, ht⟩

/-- The session invariant holds at every reachable state: a non-empty
history implies a truthy transcript. -/
theorem reachable_inv {σ : SessionState} (h : Reachable σ) :
    σ.history ≠ [] → transcriptTruthy σ.transcript = true := by
  induction h with
  | init => intro hne; exact absurd rfl hne
  | process σ' v t hr ih => intro hne; exact absurd (process_hist_nil σ' v t) hne
  | transcriptOp σ' hr ih => rw [getTranscript_state σ']; exact ih
  | summaryOp σ' svc hr ih => rw [getSummary_state σ' svc]; exact ih
  | sentimentOp σ' svc hr ih => rw [getSentiment_state σ' svc]; exact ih
  | answerOp σ' q a hr ih =>
    rcases answerQuestion_cases σ' q a with ⟨hst, -⟩ | ⟨r, hst, -, ht⟩
    · rw [hst]; exact ih
    · rw [hst]; intro _; exact ht

/-! ### Claim theorems -/

set_option maxRecDepth 40000 in
/-- C1 — the claim fails on the code: the Q&A prompt instructs the model to
answer an unanswerable question with exactly `promptSentinel` (the phrase
occurs verbatim in the built prompt, first conjunct), but
`answer_question` searches the response for the unrelated string
`checkedSentinel`, which the sentinel phrase does not contain (second
conjunct); hence a model response consisting of exactly the instructed
sentinel phrase is returned as a normal answer instead of raising
`IrrelevantQuestionError` (third conjunct). -/
theorem C1_sentinel_mismatch :
    strContains (answerPrompt "doc" "q" []) promptSentinel = true ∧
    strContains promptSentinel checkedSentinel = false ∧
    svcAnswerQuestion "doc" "q" [] (fun _ => .ok promptSentinel) = .ok promptSentinel := by
  refine ⟨by decide, by decide, rfl⟩

/-- C2 — counterexample to the claim: there is no configuration under which
the transcription dispatcher resolves to the local strategy while the
analysis dispatcher resolves to the remote one, because both read the single
shared `MODEL_PROVIDER` value. -/
theorem C2_single_flag_counterexample :
    ¬ ∃ cfg : AppConfig,
      transcriptionRoute cfg = .ok .localModel ∧ analysisRoute cfg = .ok .openaiApi := by
  rintro ⟨cfg, h1, h2⟩
  have he : transcriptionRoute cfg = analysisRoute cfg := rfl
  rw [he, h2] at h1
  simp at h1

/-- C2 (amended) — the two dispatchers consult the same single
`MODEL_PROVIDER` selection, so for every configuration they resolve to the
same strategy (and in particular never to different ones). -/
theorem C2_routes_agree : ∀ cfg : AppConfig, transcriptionRoute cfg = analysisRoute cfg :=
  fun _ => rfl

/-- C3 — counterexample to the claim: `process_audio_file` completes
successfully with an empty-string transcription result, yet `get_transcript`
fails with the not-ready `AppError` instead of returning the stored empty
transcript, because the controller's guard tests Python truthiness
(`if not self.transcript`) and `""` is falsy. -/
theorem C3_empty_transcript_counterexample :
    (processAudioFile initState (.ok ()) (.ok "")).2 = .ok () ∧
    (processAudioFile initState (.ok ()) (.ok "")).1.transcript = some "" ∧
    (getTranscript (processAudioFile initState (.ok ()) (.ok "")).1).2 =
      .error (.appError notReadyMsg) :=
  ⟨rfl, rfl, rfl⟩

/-- C3 (amended) — after a successful `process_audio_file` whose transcription
result is a non-empty string, `get_transcript` succeeds and returns the
stored transcript; when the result is the empty string, the controller
treats the session as not ready and `get_transcript` fails with the
not-ready `AppError`. -/
theorem C3_transcript_after_success (σ : SessionState) (s : String) :
    (s ≠ "" → (getTranscript (processAudioFile σ (.ok ()) (.ok s)).1).2 = .ok s) ∧
    (getTranscript (processAudioFile σ (.ok ()) (.ok "")).1).2 =
      .error (.appError notReadyMsg) := by
  constructor
  · intro hs
    have hb : (s == "") = false := beq_eq_false_iff_ne.mpr hs
    simp [processAudioFile, getTranscript, ensureTranscript, transcriptTruthy, hb]
  · rfl

/-- Witness for C3 at the concrete transcription result `"hello"`. -/
theorem C3_transcript_after_success_witness :
    (getTranscript (processAudioFile initState (.ok ()) (.ok "hello")).1).2 = .ok "hello" :=
  (C3_transcript_after_success initState "hello").1 (by decide)

/-- C4 — the session invariant holds from the initial state across every
sequence of controller operations, with arbitrary success or failure
outcomes of the collaborators: the chat history is non-empty only if the
transcript is set. -/
theorem C4_history_invariant (σ : SessionState) (h : Reachable σ)
    (hh : σ.history ≠ []) : σ.transcript.isSome = true := by
  have ht := reachable_inv h hh
  cases hσ : σ.transcript with
  | none => rw [hσ] at ht; simp [transcriptTruthy] at ht
  | some s => rfl

/-- A state reached by a successful `process_audio_file` from the initial
state. -/
def exampleReadyState : SessionState :=
  (processAudioFile initState (.ok ()) (.ok "hello")).1

/-- `exampleReadyState` after one successful Q&A turn. -/
def exampleChattedState : SessionState :=
  (answerQuestion exampleReadyState "What?" (fun _ => .ok "An answer.")).1

/-- Witness for C4 at a concrete reachable state with non-empty history. -/
theorem C4_history_invariant_witness : exampleChattedState.transcript.isSome = true :=
  C4_history_invariant exampleChattedState
    (Reachable.answerOp exampleReadyState "What?" (fun _ => .ok "An answer.")
      (Reachable.process initState (.ok ()) (.ok "hello") Reachable.init))
    (by decide)

/-- C5 — for every existing file whose lowercased extension is not in the
configured allow-list, `validate` fails with the `InvalidFileType` error,
whatever the file's size and audio metadata are (the extension check
short-circuits before the size and duration checks). -/
theorem C5_invalid_type_first (cfg : VConfig) (fs : FileSystem) (p : String)
    (st : FileStat) (h1 : fs p = some st)
    (h2 : cfg.allowedExtensions.contains (lowerStr (splitextExt p)) = false) :
    validate cfg fs p = .error (.invalidType cfg.allowedExtensions) := by
  unfold validate
  rw [h1]
  simp only [h2, Bool.not_false, if_true]

/-- A 30 MB file with a `.txt` extension (disallowed and over the 25 MB
default limit). -/
def bigBadFile : FileStat := ⟨30 * 1024 * 1024, some 0⟩

/-- A filesystem holding only `big.txt`. -/
def fsBigBad : FileSystem := fun p => if p == "big.txt" then some bigBadFile else none

/-- Witness for C5: `big.txt` both exceeds the size limit and has a
disallowed extension, and the reported error is `InvalidFileType`, not
`FileSizeExceeded`. -/
theorem C5_invalid_type_first_witness :
    bigBadFile.sizeBytes > defaultVConfig.maxFileSizeMB * 1024 * 1024 ∧
    validate defaultVConfig fsBigBad "big.txt" =
      .error (.invalidType defaultVConfig.allowedExtensions) :=
  ⟨by decide,
    C5_invalid_type_first defaultVConfig fsBigBad "big.txt" bigBadFile rfl (by decide)⟩

/-- C6 — for every path at which no file exists, `validate` fails with the
not-found `ValidationError`, regardless of the path's extension; the outcome
is distinguishable from the other four validation error kinds: the
`InvalidFileType`, `FileSizeExceeded` and `FileLengthExceeded` kinds are
raised as different exception classes, and the undecodable-audio kind,
though raised as the same base class, always carries a different message. -/
theorem C6_not_found (cfg : VConfig) (fs : FileSystem) (p : String)
    (h : fs p = none) :
    validate cfg fs p = .error (.notFound p) ∧
    VError.pyClass (.notFound p) = .validationError ∧
    (∀ a, VError.pyClass (.invalidType a) ≠ VCls.validationError) ∧
    (∀ n m, VError.pyClass (.sizeExceeded n m) ≠ VCls.validationError) ∧
    (∀ n m, VError.pyClass (.durationExceeded n m) ≠ VCls.validationError) ∧
    notFoundMessage p ≠ unreadableMessage := by
  refine ⟨?_, rfl, fun a hc => VCls.noConfusion hc,
    fun n m hc => VCls.noConfusion hc, fun n m hc => VCls.noConfusion hc, ?_⟩
  · unfold validate
    rw [h]
  · intro hmsg
    have h2 := congrArg (fun s : String => s.data.getD 1 ' ') hmsg
    simp only [notFoundMessage, unreadableMessage, String.data_append] at h2
    rw [List.getD_append _ _ _ _ (by decide)] at h2
    exact absurd h2 (by decide)

/-- The empty filesystem. -/
def fsNone : FileSystem := fun _ => none

/-- Witness for C6 at a concrete missing path with an allowed extension. -/
theorem C6_not_found_witness :
    validate defaultVConfig fsNone "ghost.mp3" = .error (.notFound "ghost.mp3") :=
  (C6_not_found defaultVConfig fsNone "ghost.mp3" rfl).1

/-- C7 — every successful `process_audio_file` leaves the history empty
immediately afterwards, whatever transcript and accumulated Q&A turns the
prior session state held. -/
theorem C7_reset_history (σ : SessionState) (v : Except PyErr Unit)
    (t : Except PyErr String) (_h : (processAudioFile σ v t).2 = .ok ()) :
    (processAudioFile σ v t).1.history = [] :=
  process_hist_nil σ v t

/-- A session state with a transcript and one accumulated Q&A turn. -/
def statePriorSession : SessionState :=
  { transcript := some "first transcript", history := [("q1", "a1")] }

/-- Witness for C7: a second successful `process_audio_file` on a state with
accumulated history leaves the history empty. -/
theorem C7_reset_history_witness :
    (processAudioFile statePriorSession (.ok ()) (.ok "second transcript")).1.history = [] :=
  C7_reset_history statePriorSession (.ok ()) (.ok "second transcript") rfl

/-- C8 — for every session, question and analysis outcome: if
`answer_question` fails (with `IrrelevantQuestionError` or any other error),
the history is exactly the history from before the call, and when it
succeeds the history is the old history with exactly the new turn
appended. -/
theorem C8_failed_turn_excluded (σ : SessionState) (q : String)
    (a : String → Except PyErr String) :
    (∀ e, (answerQuestion σ q a).2 = .error e → (answerQuestion σ q a).1.history = σ.history) ∧
    (∀ r, (answerQuestion σ q a).2 = .ok r →
      (answerQuestion σ q a).1.history = σ.history ++ [(q, r)]) := by
  rcases answerQuestion_cases σ q a with ⟨hst, e0, hres⟩ | ⟨r0, hst, hres, -⟩
  · constructor
    · intro e h; rw [hst]
    · intro r h; rw [hres] at h; simp at h
  · constructor
    · intro e h; rw [hres] at h; simp at h
    · intro r h
      rw [hres] at h
      injection h with h2
      subst h2
      rw [hst]

/-- Witness for C8: a Ready session whose analysis response contains the
checked signal string, so `answer_question` raises
`IrrelevantQuestionError` and the history stays empty. -/
theorem C8_failed_turn_excluded_witness :
    (answerQuestion ⟨some "t", []⟩ "q" (fun _ => .ok checkedSentinel)).1.history = [] :=
  (C8_failed_turn_excluded ⟨some "t", []⟩ "q" (fun _ => .ok checkedSentinel)).1
    (.irrelevantQuestionError irrelevantMsg) rfl

/-- C9 — on every session whose transcript is not set (in the sense of the
controller's truthiness test), `answer_question` fails with the not-ready
`AppError` for every question — the empty and whitespace-only questions
included — and leaves the state unchanged; the transcript guard runs before
the empty-question guard. -/
theorem C9_not_ready_first (σ : SessionState) (q : String)
    (a : String → Except PyErr String)
    (h : transcriptTruthy σ.transcript = false) :
    (answerQuestion σ q a).2 = .error (.appError notReadyMsg) ∧
    (answerQuestion σ q a).1 = σ := by
  unfold answerQuestion ensureTranscript
  rw [h]
  exact ⟨rfl, rfl⟩

/-- Witness for C9: the freshly constructed session with the empty question
fails with the not-ready error, not the empty-question error. -/
theorem C9_not_ready_first_witness :
    (answerQuestion initState "" (fun _ => .ok "x")).2 = .error (.appError notReadyMsg) :=
  (C9_not_ready_first initState "" (fun _ => .ok "x") rfl).1

/-- C10 — for every existing file whose path has no extension
(`os.path.splitext` yields the empty suffix), `validate` under the default
configuration fails with `InvalidFileType` — the empty string is not in the
default allow-list — not with the not-found or undecodable-audio errors and
not with success. -/
theorem C10_no_extension_invalid (fs : FileSystem) (p : String) (st : FileStat)
    (h1 : fs p = some st) (h2 : splitextExt p = "") :
    validate defaultVConfig fs p =
      .error (.invalidType defaultVConfig.allowedExtensions) := by
  unfold validate
  rw [h1]
  simp [h2, lowerStr, defaultVConfig]

/-- A filesystem holding one extensionless, undecodable file. -/
def fsNoExt : FileSystem := fun p => if p == "noext" then some ⟨1024, none⟩ else none

/-- Witness for C10: the extensionless (and undecodable) file `noext` is
rejected as `InvalidFileType`, not as unreadable audio. -/
theorem C10_no_extension_invalid_witness :
    validate defaultVConfig fsNoExt "noext" =
      .error (.invalidType defaultVConfig.allowedExtensions) :=
  C10_no_extension_invalid fsNoExt "noext" ⟨1024, none⟩ rfl (by decide)

end VoiceAnalysis
